import Mathlib

/-!
Verification of the market-pulse repository: the Vault Accounting and
Liquidity Rebalancing Engine (share-based custodial ledger) and the
EventMonitor polling loop.  The vault engine is embedded from the
specification (its implementation is exercised only through the brownie
test suite in src/contracts/tests/test_vault.py); the EventMonitor model
is embedded from src/agents/monitor/event_monitor.py.
-/

namespace MarketPulse

deriving instance DecidableEq for Except

/-- Error taxonomy of the vault core (spec section 7). -/
inductive VaultError where
  | InsufficientAssets
  | InsufficientClaims
  | ZeroSharesMinted
  | InvalidBurnAmount
  | ArithmeticOverflow
  | SlippageExceeded
  | Unauthorized
  | VaultExpired
  | VaultNotActive
  | AlreadyDeactivated
  | InvalidParameter
deriving DecidableEq, Repr

/-- Claim balance of a holder in an association-list ledger (0 when absent). -/
def getBal : List (Nat × Nat) → Nat → Nat
  | [], _ => 0
  | (k, b) :: rest, h => if k = h then b else getBal rest h

/-- Credit a holder with claim units (insert when absent). -/
def addBal : List (Nat × Nat) → Nat → Nat → List (Nat × Nat)
  | [], h, a => [(h, a)]
  | (k, b) :: rest, h, a =>
      if k = h then (k, b + a) :: rest else (k, b) :: addBal rest h a

/-- Debit a holder by claim units (no change when absent). -/
def subBal : List (Nat × Nat) → Nat → Nat → List (Nat × Nat)
  | [], _, _ => []
  | (k, b) :: rest, h, a =>
      if k = h then (k, b - a) :: rest else (k, b) :: subBal rest h a

/-- Sum of all holder balances. -/
def sumBal : List (Nat × Nat) → Nat
  | [] => 0
  | (_, b) :: rest => b + sumBal rest

/-- Modelled from the spec: the Vault data model of section 3 (the vault
contract itself, EventVaultBlueprint, is absent from the repository).
Amounts are unbounded naturals standing for overflow-checked integers;
holder identities are naturals; the idle amount is
total_assets_held - liquidity_amount. -/
structure Vault where
  claim_supply : Nat
  holder_balances : List (Nat × Nat)
  total_assets_held : Nat
  liquidity_amount : Nat
  target_liquidity_percent : Nat
  max_slippage_bps : Nat
  created_at : Nat
  expiry_duration : Nat
  deactivated : Bool
  owner : Nat
deriving DecidableEq, Repr

/-- Modelled from the spec: ShareMintBurnPolicy, shares minted on deposit
(section 4.2).  1:1 when supply is zero, otherwise
floor(deposit_amount * claim_supply / total_assets_held), failing with
ZeroSharesMinted when that floor is zero. -/
def shares_for_deposit (deposit_amount total_assets_held claim_supply : Nat) :
    Except VaultError Nat :=
  if claim_supply = 0 then .ok deposit_amount
  else
    let shares := deposit_amount * claim_supply / total_assets_held
    if shares = 0 then .error .ZeroSharesMinted else .ok shares

/-- Modelled from the spec: ShareMintBurnPolicy, assets returned on
withdrawal (section 4.2).  Fails with InvalidBurnAmount when the burn
exceeds the caller balance or the supply is zero. -/
def assets_for_withdrawal (burn_amount caller_balance total_assets_held claim_supply : Nat) :
    Except VaultError Nat :=
  if claim_supply = 0 then .error .InvalidBurnAmount
  else if caller_balance < burn_amount then .error .InvalidBurnAmount
  else .ok (burn_amount * total_assets_held / claim_supply)

/-- Modelled from the spec: deposit (sections 4.2 and 4.5).  The status
gate precedes the expiry gate, as pinned by test_vault_lifecycle: a vault
that is both expired and deactivated reverts with the not-active message. -/
def deposit (v : Vault) (caller amount now : Nat) :
    Except VaultError (Vault × Nat) :=
  if v.deactivated then .error .VaultNotActive
  else if v.created_at + v.expiry_duration ≤ now then .error .VaultExpired
  else
    match shares_for_deposit amount v.total_assets_held v.claim_supply with
    | .error e => .error e
    | .ok shares =>
        .ok ({ v with
                total_assets_held := v.total_assets_held + amount,
                claim_supply := v.claim_supply + shares,
                holder_balances := addBal v.holder_balances caller shares },
             shares)

/-- Modelled from the spec: withdraw (sections 4.2 and 4.5).  Withdrawals
are permitted in every lifecycle state, so no status or expiry gate. -/
def withdraw (v : Vault) (caller burn_amount _now : Nat) :
    Except VaultError (Vault × Nat) :=
  match assets_for_withdrawal burn_amount (getBal v.holder_balances caller)
      v.total_assets_held v.claim_supply with
  | .error e => .error e
  | .ok assets =>
      .ok ({ v with
              total_assets_held := v.total_assets_held - assets,
              claim_supply := v.claim_supply - burn_amount,
              holder_balances := subBal v.holder_balances caller burn_amount },
           assets)

/-- Modelled from the spec: YieldDistributor (section 4.4).  The external
collaborator supplies actual_balance, the custodied balance actually held;
surplus at most zero is a no-op returning 0, otherwise the surplus is
folded into total_assets_held without minting shares. -/
def distribute_yield (v : Vault) (caller actual_balance now : Nat) :
    Except VaultError (Vault × Nat) :=
  if caller ≠ v.owner then .error .Unauthorized
  else if v.deactivated then .error .VaultNotActive
  else if v.created_at + v.expiry_duration ≤ now then .error .VaultExpired
  else if actual_balance ≤ v.total_assets_held then .ok (v, 0)
  else
    .ok ({ v with
            total_assets_held :=
              v.total_assets_held + (actual_balance - v.total_assets_held) },
         actual_balance - v.total_assets_held)

/-- Modelled from the spec: VaultLifecycle deactivation (section 4.5),
owner-only and irreversible. -/
def deactivate (v : Vault) (caller : Nat) : Except VaultError Vault :=
  if caller ≠ v.owner then .error .Unauthorized
  else if v.deactivated then .error .AlreadyDeactivated
  else .ok { v with deactivated := true }

/-- Modelled from the spec: RebalancePolicy deviation test (section 4.3).
False when there is nothing to allocate; otherwise compares the absolute
deviation of the liquidity ratio (in basis points) from the target against
the threshold. -/
def needs_rebalance (v : Vault) (min_rebalance_threshold_bps : Nat) : Bool :=
  if v.total_assets_held = 0 then false
  else
    decide (min_rebalance_threshold_bps ≤
      (((v.liquidity_amount * 10000 / v.total_assets_held : Nat) : Int) -
        (v.target_liquidity_percent : Int)).natAbs)

/-- Modelled from the spec: RebalancePolicy corrective move (section 4.3).
Positive moves idle capital to liquidity, negative the reverse, sized to
bring the ratio exactly to target. -/
def compute_rebalance_action (v : Vault) : Int :=
  ((v.total_assets_held * v.target_liquidity_percent / 10000 : Nat) : Int) -
    (v.liquidity_amount : Int)

/-- Modelled from the spec: one rebalance invocation (section 4.3).  The
liquidity venue collaborator reply (actual_amount, price_impact_bps) is
passed in; a price impact above max_slippage_bps fails with
SlippageExceeded and the provisional ledger move is discarded. -/
def rebalance (v : Vault) (min_rebalance_threshold_bps actual_amount price_impact_bps : Nat) :
    Except VaultError (Vault × Nat) :=
  if needs_rebalance v min_rebalance_threshold_bps = false then .ok (v, 0)
  else
    let moved :=
      if 0 ≤ compute_rebalance_action v then
        { v with liquidity_amount := v.liquidity_amount + actual_amount }
      else
        { v with liquidity_amount := v.liquidity_amount - actual_amount }
    if v.max_slippage_bps < price_impact_bps then .error .SlippageExceeded
    else .ok (moved, actual_amount)

/-- The mutating operations of the vault core (spec section 5). -/
inductive Op where
  | deposit (caller amount now : Nat)
  | withdraw (caller burn_amount now : Nat)
  | distributeYield (caller actual_balance now : Nat)
  | deactivate (caller : Nat)
  | rebalance (min_rebalance_threshold_bps actual_amount price_impact_bps : Nat)
deriving DecidableEq, Repr

/-- Dispatch one operation. -/
def step (v : Vault) : Op → Except VaultError (Vault × Nat)
  | .deposit caller amount now => deposit v caller amount now
  | .withdraw caller burn_amount now => withdraw v caller burn_amount now
  | .distributeYield caller actual_balance now =>
      distribute_yield v caller actual_balance now
  | .deactivate caller =>
      match deactivate v caller with
      | .error e => .error e
      | .ok w => .ok (w, 0)
  | .rebalance thr actual impact => rebalance v thr actual impact

/-- Transactional runner: a failing operation reverts, leaving the ledger
exactly as it was before the call (spec section 7, atomic rollback). -/
def run (v : Vault) (op : Op) : Vault × Option VaultError :=
  match step v op with
  | .ok (w, _) => (w, none)
  | .error e => (v, some e)

/-- Apply a sequence of operations under the transactional runner. -/
def runs (v : Vault) (ops : List Op) : Vault :=
  ops.foldl (fun w op => (run w op).1) v

/-- The operations quantified in property P1: deposit, withdraw and
distribute_yield. -/
def isLedgerOp : Op → Bool
  | .deposit _ _ _ => true
  | .withdraw _ _ _ => true
  | .distributeYield _ _ _ => true
  | _ => false

/-- Invariant I1, share conservation. -/
def conserves (v : Vault) : Prop :=
  sumBal v.holder_balances = v.claim_supply

/-! EventMonitor model, embedded from src/agents/monitor/event_monitor.py.
Addresses and timestamps are naturals; only the recipient field of a
transaction is consulted by the embedded logic, so that is the field kept. -/

/-- A transaction as consulted by EventMonitor._process_block; recipient
stands for the tx.to field of the source. -/
structure Transaction where
  recipient : Option Nat
deriving DecidableEq, Repr

/-- A detected event record; only the timestamp is consulted afterwards
(by _cleanup_old_data). -/
structure EventRec where
  timestamp : Nat
deriving DecidableEq, Repr

/-- A trending-contract record produced by _identify_trending_contracts. -/
structure TrendData where
  contract_address : Nat
  transaction_count : Nat
  timestamp : Nat
deriving DecidableEq, Repr

/-- The EventMonitor state fields touched by the polling loop.  The
block-fetch from the chain is represented by the list of new blocks handed
to each iteration. -/
structure MonitorState where
  quickswap_router_address : Nat
  trend_threshold : Nat
  transaction_count : List (Nat × Nat)
  swap_events : List EventRec
  whale_movements : List EventRec
  trending_contracts : List TrendData
deriving DecidableEq, Repr

/-- EventMonitor._check_for_swap: the source is a placeholder that always
returns None. -/
def check_for_swap (_tx : Transaction) : Option EventRec := none

/-- EventMonitor._check_for_whale_movement: the source is a placeholder
that always returns None. -/
def check_for_whale_movement (_tx : Transaction) : Option EventRec := none

/-- The per-transaction body of EventMonitor._process_block: count the
recipient contract, then run the swap and whale detectors. -/
def process_tx (m : MonitorState) (tx : Transaction) : MonitorState :=
  let m1 :=
    match tx.recipient with
    | some c => { m with transaction_count := addBal m.transaction_count c 1 }
    | none => m
  let m2 :=
    if tx.recipient = some m1.quickswap_router_address then
      match check_for_swap tx with
      | some e => { m1 with swap_events := m1.swap_events ++ [e] }
      | none => m1
    else m1
  match check_for_whale_movement tx with
  | some e => { m2 with whale_movements := m2.whale_movements ++ [e] }
  | none => m2

/-- EventMonitor._process_block over the transactions of one block. -/
def process_block (m : MonitorState) (b : List Transaction) : MonitorState :=
  b.foldl process_tx m

/-- EventMonitor._identify_trending_contracts: replace trending_contracts
with the contracts whose count reached trend_threshold, stamped now. -/
def identify_trending_contracts (m : MonitorState) (now : Nat) : MonitorState :=
  { m with trending_contracts :=
      m.transaction_count.filterMap fun p =>
        if m.trend_threshold ≤ p.2 then
          some { contract_address := p.1, transaction_count := p.2, timestamp := now }
        else none }

/-- EventMonitor._cleanup_old_data: keep events younger than 24 hours
(86400 seconds) and reset transaction_count to the empty mapping. -/
def cleanup_old_data (m : MonitorState) (now : Nat) : MonitorState :=
  { m with
      swap_events := m.swap_events.filter fun e => decide (now < e.timestamp + 86400),
      whale_movements := m.whale_movements.filter fun e => decide (now < e.timestamp + 86400),
      trending_contracts := m.trending_contracts.filter fun t => decide (now < t.timestamp + 86400),
      transaction_count := [] }

/-- One iteration of EventMonitor.start_monitoring: process the new
blocks, identify trending contracts, then clean up old data. -/
def monitor_iteration (m : MonitorState) (blocks : List (List Transaction)) (now : Nat) :
    MonitorState :=
  cleanup_old_data (identify_trending_contracts (blocks.foldl process_block m) now) now

/-- The recipient-count update of a single transaction, on the count
mapping alone. -/
def count_tx (c : List (Nat × Nat)) (tx : Transaction) : List (Nat × Nat) :=
  match tx.recipient with
  | some a => addBal c a 1
  | none => c

/-- Transaction counts accumulated from a list of blocks starting empty. -/
def counts_from_blocks (blocks : List (List Transaction)) : List (Nat × Nat) :=
  blocks.foldl (fun c b => b.foldl count_tx c) []

/-- The trending records obtained from a count mapping at a threshold. -/
def trending_from_counts (thr : Nat) (c : List (Nat × Nat)) (now : Nat) : List TrendData :=
  c.filterMap fun p =>
    if thr ≤ p.2 then
      some { contract_address := p.1, transaction_count := p.2, timestamp := now }
    else none

/-- The trending records determined by the blocks of a single iteration. -/
def trending_from_blocks (thr : Nat) (blocks : List (List Transaction)) (now : Nat) :
    List TrendData :=
  trending_from_counts thr (counts_from_blocks blocks) now

/-! Concrete instances used to evaluate the theorems on explicit inputs. -/

/-- A freshly created vault as the registry initializes it: owner 1,
zero supply, zero assets, the example parameters of spec section 8. -/
def vault0 : Vault :=
  { claim_supply := 0, holder_balances := [], total_assets_held := 0,
    liquidity_amount := 0, target_liquidity_percent := 8000,
    max_slippage_bps := 100, created_at := 0, expiry_duration := 604800,
    deactivated := false, owner := 1 }

/-- A vault holding the state of the spec section 8 scenario after both
example deposits: holders 2 and 3 with 1000 and 2000 claims. -/
def vaultA : Vault :=
  { claim_supply := 3000, holder_balances := [(2, 1000), (3, 2000)],
    total_assets_held := 3000, liquidity_amount := 1000,
    target_liquidity_percent := 8000, max_slippage_bps := 100,
    created_at := 0, expiry_duration := 604800,
    deactivated := false, owner := 1 }

/-- A vault that is deactivated and whose expiry has also passed at time
999999 (one day expiry from creation at 0). -/
def vaultX : Vault :=
  { claim_supply := 1000, holder_balances := [(2, 1000)],
    total_assets_held := 1000, liquidity_amount := 0,
    target_liquidity_percent := 0, max_slippage_bps := 0,
    created_at := 0, expiry_duration := 86400,
    deactivated := true, owner := 1 }

/-- The spec section 8 scenario as a concrete operation sequence. -/
def opsW : List Op :=
  [Op.deposit 2 1000 10, Op.deposit 3 2000 20, Op.withdraw 2 500 30,
   Op.distributeYield 1 3100 40]

/-- A concrete monitor state with an empty count mapping. -/
def monitor0 : MonitorState :=
  { quickswap_router_address := 77, trend_threshold := 2,
    transaction_count := [], swap_events := [], whale_movements := [],
    trending_contracts := [] }

/-- Two concrete polling iterations worth of blocks. -/
def blocksW : List (List Transaction) :=
  [[{ recipient := some 5 }, { recipient := some 5 }, { recipient := none }],
   [{ recipient := some 6 }]]

/-- A second batch of blocks for the following iteration. -/
def blocksW2 : List (List Transaction) :=
  [[{ recipient := some 9 }, { recipient := some 9 }]]

/-! Ledger arithmetic lemmas. -/

/-- Crediting a holder raises the balance sum by exactly the credit. -/
theorem sumBal_addBal (l : List (Nat × Nat)) (h a : Nat) :
    sumBal (addBal l h a) = sumBal l + a := by
  induction l with
  | nil => simp [addBal, sumBal]
  | cons p rest ih =>
    obtain ⟨k, b⟩ := p
    by_cases hk : k = h
    · simp [addBal, hk, sumBal]
      omega
    · simp [addBal, hk, sumBal, ih]
      omega

/-- A single balance never exceeds the balance sum. -/
theorem getBal_le_sumBal (l : List (Nat × Nat)) (h : Nat) :
    getBal l h ≤ sumBal l := by
  induction l with
  | nil => simp [getBal, sumBal]
  | cons p rest ih =>
    obtain ⟨k, b⟩ := p
    by_cases hk : k = h
    · simp [getBal, hk, sumBal]
    · simp [getBal, hk, sumBal]
      omega

/-- Debiting a holder within its balance lowers the sum by the debit. -/
theorem sumBal_subBal (l : List (Nat × Nat)) (h a : Nat) (hle : a ≤ getBal l h) :
    sumBal (subBal l h a) = sumBal l - a := by
  induction l with
  | nil =>
    simp [getBal] at hle
    simp [subBal, hle, sumBal]
  | cons p rest ih =>
    obtain ⟨k, b⟩ := p
    by_cases hk : k = h
    · simp [getBal, hk] at hle
      simp [subBal, hk, sumBal]
      omega
    · simp [getBal, hk] at hle
      have hrest := getBal_le_sumBal rest h
      simp [subBal, hk, sumBal, ih hle]
      omega

/-! Invariant preservation across the transactional runner. -/

/-- Any successful operation preserves share conservation. -/
theorem step_ok_conserves (v w : Vault) (op : Op) (r : Nat)
    (hs : step v op = .ok (w, r)) (h : conserves v) : conserves w := by
  cases op with
  | deposit c a n =>
    simp only [step] at hs
    unfold deposit at hs
    split at hs
    · exact absurd hs (by simp)
    split at hs
    · exact absurd hs (by simp)
    cases hsh : shares_for_deposit a v.total_assets_held v.claim_supply with
    | error e =>
      rw [hsh] at hs
      exact absurd hs (by simp)
    | ok shares =>
      rw [hsh] at hs
      simp only [Except.ok.injEq, Prod.mk.injEq] at hs
      obtain ⟨hw, _⟩ := hs
      subst hw
      simp only [conserves] at h ⊢
      simp [sumBal_addBal, h]
  | withdraw c bamt n =>
    simp only [step] at hs
    unfold withdraw at hs
    cases haw : assets_for_withdrawal bamt (getBal v.holder_balances c)
        v.total_assets_held v.claim_supply with
    | error e =>
      rw [haw] at hs
      exact absurd hs (by simp)
    | ok assets =>
      rw [haw] at hs
      simp only [Except.ok.injEq, Prod.mk.injEq] at hs
      obtain ⟨hw, _⟩ := hs
      unfold assets_for_withdrawal at haw
      split at haw
      · exact absurd haw (by simp)
      split at haw
      · exact absurd haw (by simp)
      rename_i hs0 hlt
      subst hw
      simp only [conserves] at h ⊢
      simp [sumBal_subBal _ _ _ (Nat.le_of_not_lt hlt), h]
  | distributeYield c a n =>
    simp only [step] at hs
    unfold distribute_yield at hs
    split at hs
    · exact absurd hs (by simp)
    split at hs
    · exact absurd hs (by simp)
    split at hs
    · exact absurd hs (by simp)
    split at hs
    · simp only [Except.ok.injEq, Prod.mk.injEq] at hs
      obtain ⟨hw, _⟩ := hs
      subst hw
      exact h
    · simp only [Except.ok.injEq, Prod.mk.injEq] at hs
      obtain ⟨hw, _⟩ := hs
      subst hw
      exact h
  | deactivate c =>
    simp only [step] at hs
    cases hd : deactivate v c with
    | error e =>
      rw [hd] at hs
      exact absurd hs (by simp)
    | ok w2 =>
      rw [hd] at hs
      simp only [Except.ok.injEq, Prod.mk.injEq] at hs
      obtain ⟨hw, _⟩ := hs
      subst hw
      unfold deactivate at hd
      split at hd
      · exact absurd hd (by simp)
      split at hd
      · exact absurd hd (by simp)
      simp only [Except.ok.injEq] at hd
      subst hd
      exact h
  | rebalance thr actual impact =>
    simp only [step] at hs
    unfold rebalance at hs
    split at hs
    · simp only [Except.ok.injEq, Prod.mk.injEq] at hs
      obtain ⟨hw, _⟩ := hs
      subst hw
      exact h
    · split at hs <;> split at hs
      · exact absurd hs (by simp)
      · simp only [Except.ok.injEq, Prod.mk.injEq] at hs
        obtain ⟨hw, _⟩ := hs
        subst hw
        exact h
      · exact absurd hs (by simp)
      · simp only [Except.ok.injEq, Prod.mk.injEq] at hs
        obtain ⟨hw, _⟩ := hs
        subst hw
        exact h

/-- The transactional runner preserves share conservation. -/
theorem conserves_run (v : Vault) (op : Op) (h : conserves v) :
    conserves (run v op).1 := by
  cases hs : step v op with
  | ok p =>
    obtain ⟨w, r⟩ := p
    simpa [run, hs] using step_ok_conserves v w op r hs h
  | error e =>
    simpa [run, hs] using h

/-- Share conservation holds after any sequence of operations. -/
theorem conserves_runs (v : Vault) (ops : List Op) (h : conserves v) :
    conserves (runs v ops) := by
  induction ops generalizing v with
  | nil => exact h
  | cons op rest ih =>
    simp only [runs, List.foldl_cons]
    exact ih _ (conserves_run v op h)

/-- No successful operation clears the deactivated flag. -/
theorem step_ok_deactivated (v w : Vault) (op : Op) (r : Nat)
    (hs : step v op = .ok (w, r)) (h : v.deactivated = true) :
    w.deactivated = true := by
  cases op with
  | deposit c a n =>
    simp only [step] at hs
    unfold deposit at hs
    rw [if_pos h] at hs
    exact absurd hs (by simp)
  | withdraw c bamt n =>
    simp only [step] at hs
    unfold withdraw at hs
    cases haw : assets_for_withdrawal bamt (getBal v.holder_balances c)
        v.total_assets_held v.claim_supply with
    | error e =>
      rw [haw] at hs
      exact absurd hs (by simp)
    | ok assets =>
      rw [haw] at hs
      simp only [Except.ok.injEq, Prod.mk.injEq] at hs
      obtain ⟨hw, _⟩ := hs
      subst hw
      exact h
  | distributeYield c a n =>
    simp only [step] at hs
    unfold distribute_yield at hs
    split at hs
    · exact absurd hs (by simp)
    exact absurd hs (by simp)
  | deactivate c =>
    simp only [step] at hs
    cases hd : deactivate v c with
    | error e =>
      rw [hd] at hs
      exact absurd hs (by simp)
    | ok w2 =>
      rw [hd] at hs
      simp only [Except.ok.injEq, Prod.mk.injEq] at hs
      obtain ⟨hw, _⟩ := hs
      subst hw
      unfold deactivate at hd
      split at hd
      · exact absurd hd (by simp)
      exact absurd hd (by simp)
  | rebalance thr actual impact =>
    simp only [step] at hs
    unfold rebalance at hs
    split at hs
    · simp only [Except.ok.injEq, Prod.mk.injEq] at hs
      obtain ⟨hw, _⟩ := hs
      subst hw
      exact h
    · split at hs <;> split at hs
      · exact absurd hs (by simp)
      · simp only [Except.ok.injEq, Prod.mk.injEq] at hs
        obtain ⟨hw, _⟩ := hs
        subst hw
        exact h
      · exact absurd hs (by simp)
      · simp only [Except.ok.injEq, Prod.mk.injEq] at hs
        obtain ⟨hw, _⟩ := hs
        subst hw
        exact h

/-- The transactional runner never clears the deactivated flag. -/
theorem run_preserves_deactivated (v : Vault) (op : Op) (h : v.deactivated = true) :
    ((run v op).1).deactivated = true := by
  cases hs : step v op with
  | ok p =>
    obtain ⟨w, r⟩ := p
    simpa [run, hs] using step_ok_deactivated v w op r hs h
  | error e =>
    simpa [run, hs] using h

/-- Deactivation is irreversible under any operation sequence. -/
theorem runs_preserves_deactivated (v : Vault) (ops : List Op) (h : v.deactivated = true) :
    (runs v ops).deactivated = true := by
  induction ops generalizing v with
  | nil => exact h
  | cons op rest ih =>
    simp only [runs, List.foldl_cons]
    exact ih _ (run_preserves_deactivated v op h)

/-- A withdrawal by a holder whose balance covers the burn succeeds while
supply is positive, in any lifecycle state, and returns the floor of the
proportional share. -/
theorem withdraw_succeeds (v : Vault) (caller burn now : Nat)
    (hsup : v.claim_supply ≠ 0) (hbal : burn ≤ getBal v.holder_balances caller) :
    withdraw v caller burn now =
      .ok ({ v with
              total_assets_held :=
                v.total_assets_held - burn * v.total_assets_held / v.claim_supply,
              claim_supply := v.claim_supply - burn,
              holder_balances := subBal v.holder_balances caller burn },
           burn * v.total_assets_held / v.claim_supply) := by
  unfold withdraw assets_for_withdrawal
  rw [if_neg hsup, if_neg (Nat.not_lt.mpr hbal)]

/-! EventMonitor lemmas. -/

/-- Since both detectors are placeholders returning none, processing one
transaction changes only the count mapping. -/
theorem process_tx_eq (m : MonitorState) (tx : Transaction) :
    process_tx m tx = { m with transaction_count := count_tx m.transaction_count tx } := by
  unfold process_tx count_tx check_for_swap check_for_whale_movement
  cases tx.recipient <;> simp

/-- Processing a block folds the count update over its transactions. -/
theorem process_block_eq (m : MonitorState) (b : List Transaction) :
    process_block m b =
      { m with transaction_count := b.foldl count_tx m.transaction_count } := by
  unfold process_block
  induction b generalizing m with
  | nil => simp
  | cons t rest ih =>
    simp only [List.foldl_cons, process_tx_eq, ih]

/-- Processing a list of blocks folds the count updates block by block. -/
theorem foldl_process_block_eq (m : MonitorState) (bs : List (List Transaction)) :
    bs.foldl process_block m =
      { m with transaction_count :=
          bs.foldl (fun c b => b.foldl count_tx c) m.transaction_count } := by
  induction bs generalizing m with
  | nil => simp
  | cons b rest ih =>
    simp only [List.foldl_cons, process_block_eq, ih]

/-- Every trending record produced at a given instant survives the
24-hour cleanup filter applied at that same instant. -/
theorem trending_filter_fresh (thr : Nat) (c : List (Nat × Nat)) (now : Nat) :
    (trending_from_counts thr c now).filter
        (fun t => decide (now < t.timestamp + 86400)) =
      trending_from_counts thr c now := by
  unfold trending_from_counts
  induction c with
  | nil => rfl
  | cons p rest ih =>
    by_cases hp : thr ≤ p.2
    · simp [List.filterMap_cons, hp, List.filter_cons, ih]
    · simp [List.filterMap_cons, hp, ih]

/-- One polling iteration leaves the count mapping empty. -/
theorem monitor_iteration_count (m : MonitorState)
    (blocks : List (List Transaction)) (now : Nat) :
    (monitor_iteration m blocks now).transaction_count = [] := by
  simp [monitor_iteration, cleanup_old_data]

/-- One polling iteration does not change the trend threshold. -/
theorem monitor_iteration_threshold (m : MonitorState)
    (blocks : List (List Transaction)) (now : Nat) :
    (monitor_iteration m blocks now).trend_threshold = m.trend_threshold := by
  simp [monitor_iteration, cleanup_old_data, identify_trending_contracts,
    foldl_process_block_eq]

/-- Starting from an empty count mapping, the trending contracts left by
one polling iteration are determined by the blocks of that iteration
alone. -/
theorem monitor_iteration_trending (m : MonitorState)
    (blocks : List (List Transaction)) (now : Nat)
    (h : m.transaction_count = []) :
    (monitor_iteration m blocks now).trending_contracts =
      trending_from_blocks m.trend_threshold blocks now := by
  unfold monitor_iteration cleanup_old_data identify_trending_contracts
  simp only [foldl_process_block_eq, h]
  exact trending_filter_fresh m.trend_threshold (counts_from_blocks blocks) now

/-! Claim theorems. -/

/-- C1: for every vault satisfying share conservation and every finite
sequence of deposit, withdraw and distribute_yield operations, the sum of
holder balances equals the claim supply after each operation, that is
after every prefix of the sequence (invariant I1, property P1). -/
theorem c1_share_conservation (v : Vault) (ops : List Op) (n : Nat)
    (hinv : sumBal v.holder_balances = v.claim_supply)
    (hops : ∀ op ∈ ops, isLedgerOp op = true) :
    sumBal (runs v (ops.take n)).holder_balances =
      (runs v (ops.take n)).claim_supply :=
  conserves_runs v (ops.take n) hinv

/-- C1 witness at the spec section 8 scenario. -/
theorem c1_share_conservation_witness :
    (sumBal vault0.holder_balances = vault0.claim_supply) ∧
    (∀ op ∈ opsW, isLedgerOp op = true) ∧
    sumBal (runs vault0 (opsW.take 3)).holder_balances =
      (runs vault0 (opsW.take 3)).claim_supply :=
  ⟨by decide, by decide, c1_share_conservation vault0 opsW 3 (by decide) (by decide)⟩

/-- C2: shares_for_deposit with a positive deposit mints 1:1 when the
claim supply is zero; with a positive supply it mints the floor of
deposit_amount * claim_supply / total_assets_held and fails with
ZeroSharesMinted exactly when that floor is zero. -/
theorem c2_shares_for_deposit_spec (d t s : Nat) (hd : 0 < d) :
    (s = 0 → shares_for_deposit d t s = .ok d) ∧
    (0 < s →
      shares_for_deposit d t s =
        if d * s / t = 0 then .error .ZeroSharesMinted else .ok (d * s / t)) := by
  constructor
  · intro hs
    simp [shares_for_deposit, hs]
  · intro hs
    have hs0 : s ≠ 0 := by omega
    unfold shares_for_deposit
    rw [if_neg hs0]

/-- C2 witness: a one-unit deposit against supply 1000 and assets 2000 is
diluted to zero shares and rejected. -/
theorem c2_shares_for_deposit_spec_witness :
    0 < 1 ∧ 0 < 1000 ∧
    shares_for_deposit 1 2000 1000 =
      (if 1 * 1000 / 2000 = 0 then .error .ZeroSharesMinted
       else .ok (1 * 1000 / 2000)) :=
  ⟨by decide, by decide,
   (c2_shares_for_deposit_spec 1 2000 1000 (by decide)).2 (by decide)⟩

/-- C3: assets_for_withdrawal returns the floor of
burn_amount * total_assets_held / claim_supply whenever the burn does not
exceed the caller balance and the supply is positive, and fails with
InvalidBurnAmount when the burn exceeds the caller balance or the supply
is zero. -/
theorem c3_assets_for_withdrawal_spec (b bal t s : Nat) :
    (b ≤ bal → 0 < s → assets_for_withdrawal b bal t s = .ok (b * t / s)) ∧
    (bal < b ∨ s = 0 →
      assets_for_withdrawal b bal t s = .error .InvalidBurnAmount) := by
  constructor
  · intro hb hs
    have hs0 : s ≠ 0 := by omega
    unfold assets_for_withdrawal
    rw [if_neg hs0, if_neg (Nat.not_lt.mpr hb)]
  · intro hor
    unfold assets_for_withdrawal
    rcases hor with hlt | hs
    · by_cases hs0 : s = 0
      · rw [if_pos hs0]
      · rw [if_neg hs0, if_pos hlt]
    · rw [if_pos hs]

/-- C3 witness at the spec section 8 scenario (500 shares burnt against
supply 3000 and assets 3000 redeem 500 units). -/
theorem c3_assets_for_withdrawal_spec_witness :
    500 ≤ 1000 ∧ 0 < 3000 ∧
    assets_for_withdrawal 500 1000 3000 3000 = .ok (500 * 3000 / 3000) :=
  ⟨by decide, by decide,
   (c3_assets_for_withdrawal_spec 500 1000 3000 3000).1 (by decide) (by decide)⟩

/-- C4 counterexample: vaultX is past expiry at time 999999, yet a
deposit fails with VaultNotActive rather than VaultExpired, because
vaultX is deactivated and the status gate precedes the expiry gate (as
test_vault_lifecycle requires of a vault that is both expired and
deactivated).  So the claim does not hold for every vault. -/
theorem c4_counterexample :
    vaultX.created_at + vaultX.expiry_duration ≤ 999999 ∧
    deposit vaultX 2 100 999999 = .error .VaultNotActive ∧
    deposit vaultX 2 100 999999 ≠ .error .VaultExpired :=
  ⟨by decide, by decide, by decide⟩

/-- C4 (amended): for every vault with status Active, a deposit attempted
at now at or past created_at + expiry_duration fails with VaultExpired,
while a withdrawal at the same time by a holder with sufficient claims
(a positive burn within the holder balance) succeeds. -/
theorem c4_expiry_gating (v : Vault) (caller amount burn now : Nat)
    (hact : v.deactivated = false)
    (hexp : v.created_at + v.expiry_duration ≤ now)
    (hinv : sumBal v.holder_balances = v.claim_supply)
    (hpos : 0 < burn)
    (hbal : burn ≤ getBal v.holder_balances caller) :
    deposit v caller amount now = .error .VaultExpired ∧
    ∃ w a, withdraw v caller burn now = .ok (w, a) := by
  constructor
  · simp [deposit, hact, hexp]
  · have hsup : v.claim_supply ≠ 0 := by
      have h1 := getBal_le_sumBal v.holder_balances caller
      omega
    exact ⟨_, _, withdraw_succeeds v caller burn now hsup hbal⟩

/-- C4 witness: vaultA one week after creation. -/
theorem c4_expiry_gating_witness :
    vaultA.deactivated = false ∧
    vaultA.created_at + vaultA.expiry_duration ≤ 700000 ∧
    sumBal vaultA.holder_balances = vaultA.claim_supply ∧
    0 < 500 ∧
    500 ≤ getBal vaultA.holder_balances 2 ∧
    (deposit vaultA 2 100 700000 = .error .VaultExpired ∧
     ∃ w a, withdraw vaultA 2 500 700000 = .ok (w, a)) :=
  ⟨by decide, by decide, by decide, by decide, by decide,
   c4_expiry_gating vaultA 2 100 500 700000 (by decide) (by decide) (by decide)
     (by decide) (by decide)⟩

/-- C5: after deactivate() by the owner of an active vault, a deposit
fails with VaultNotActive, a second deactivate() by the owner fails with
AlreadyDeactivated, the deactivated state survives any operation
sequence, and a withdrawal by a holder with sufficient claims still
succeeds (property P6 and spec section 4.5). -/
theorem c5_deactivation_gating (v : Vault) (caller caller2 amount burn now : Nat)
    (ops : List Op)
    (hact : v.deactivated = false)
    (hinv : sumBal v.holder_balances = v.claim_supply)
    (hpos : 0 < burn)
    (hbal : burn ≤ getBal v.holder_balances caller2) :
    deactivate v v.owner = .ok { v with deactivated := true } ∧
    deposit { v with deactivated := true } caller amount now = .error .VaultNotActive ∧
    deactivate { v with deactivated := true } v.owner = .error .AlreadyDeactivated ∧
    (runs { v with deactivated := true } ops).deactivated = true ∧
    ∃ w a, withdraw { v with deactivated := true } caller2 burn now = .ok (w, a) := by
  refine ⟨?_, ?_, ?_, ?_, ?_⟩
  · simp [deactivate, hact]
  · simp [deposit]
  · simp [deactivate]
  · exact runs_preserves_deactivated _ ops rfl
  · have hsup : v.claim_supply ≠ 0 := by
      have h1 := getBal_le_sumBal v.holder_balances caller2
      omega
    exact ⟨_, _, withdraw_succeeds { v with deactivated := true } caller2 burn now hsup hbal⟩

/-- C5 witness: vaultA deactivated by its owner. -/
theorem c5_deactivation_gating_witness :
    vaultA.deactivated = false ∧
    sumBal vaultA.holder_balances = vaultA.claim_supply ∧
    0 < 500 ∧
    500 ≤ getBal vaultA.holder_balances 2 ∧
    (deactivate vaultA vaultA.owner = .ok { vaultA with deactivated := true } ∧
     deposit { vaultA with deactivated := true } 5 100 30 = .error .VaultNotActive ∧
     deactivate { vaultA with deactivated := true } vaultA.owner = .error .AlreadyDeactivated ∧
     (runs { vaultA with deactivated := true } opsW).deactivated = true ∧
     ∃ w a, withdraw { vaultA with deactivated := true } 2 500 30 = .ok (w, a)) :=
  ⟨by decide, by decide, by decide, by decide,
   c5_deactivation_gating vaultA 5 2 100 500 30 opsW (by decide) (by decide)
     (by decide) (by decide)⟩

/-- C6: every owner-gated operation called by a non-owner, deactivate()
and distribute_yield(), fails with Unauthorized and under the
transactional runner leaves the vault state unchanged (property P7). -/
theorem c6_owner_gating (v : Vault) (caller actual now : Nat) (h : caller ≠ v.owner) :
    deactivate v caller = .error .Unauthorized ∧
    distribute_yield v caller actual now = .error .Unauthorized ∧
    run v (Op.deactivate caller) = (v, some .Unauthorized) ∧
    run v (Op.distributeYield caller actual now) = (v, some .Unauthorized) := by
  have h1 : deactivate v caller = .error .Unauthorized := by
    simp [deactivate, h]
  have h2 : distribute_yield v caller actual now = .error .Unauthorized := by
    simp [distribute_yield, h]
  refine ⟨h1, h2, ?_, ?_⟩
  · simp [run, step, h1]
  · simp [run, step, h2]

/-- C6 witness: caller 9 is not the owner of vaultA. -/
theorem c6_owner_gating_witness :
    (9 : Nat) ≠ vaultA.owner ∧
    (deactivate vaultA 9 = .error .Unauthorized ∧
     distribute_yield vaultA 9 3100 30 = .error .Unauthorized ∧
     run vaultA (Op.deactivate 9) = (vaultA, some .Unauthorized) ∧
     run vaultA (Op.distributeYield 9 3100 30) = (vaultA, some .Unauthorized)) :=
  ⟨by decide, c6_owner_gating vaultA 9 3100 30 (by decide)⟩

/-- C7: distribute_yield() by the owner of an active, unexpired vault is
a no-op returning 0 when the surplus is at most zero, and otherwise
raises total_assets_held by exactly the surplus, changes neither the
claim supply nor any holder balance, and returns the distributed
amount (spec section 4.4). -/
theorem c7_distribute_yield_spec (v : Vault) (actual now : Nat)
    (hact : v.deactivated = false)
    (hexp : now < v.created_at + v.expiry_duration) :
    (actual ≤ v.total_assets_held →
      distribute_yield v v.owner actual now = .ok (v, 0)) ∧
    (v.total_assets_held < actual →
      ∃ w, distribute_yield v v.owner actual now =
          .ok (w, actual - v.total_assets_held) ∧
        w.total_assets_held = v.total_assets_held + (actual - v.total_assets_held) ∧
        w.claim_supply = v.claim_supply ∧
        w.holder_balances = v.holder_balances) := by
  have hnex : ¬ (v.created_at + v.expiry_duration ≤ now) := by omega
  constructor
  · intro hle
    simp [distribute_yield, hact, hnex, hle]
  · intro hlt
    refine ⟨{ v with total_assets_held :=
        v.total_assets_held + (actual - v.total_assets_held) }, ?_, rfl, rfl, rfl⟩
    simp [distribute_yield, hact, hnex, Nat.not_le.mpr hlt]

/-- C7 witness: 100 units of surplus on vaultA. -/
theorem c7_distribute_yield_spec_witness :
    vaultA.deactivated = false ∧
    30 < vaultA.created_at + vaultA.expiry_duration ∧
    vaultA.total_assets_held < 3100 ∧
    ∃ w, distribute_yield vaultA vaultA.owner 3100 30 =
        .ok (w, 3100 - vaultA.total_assets_held) ∧
      w.total_assets_held = vaultA.total_assets_held + (3100 - vaultA.total_assets_held) ∧
      w.claim_supply = vaultA.claim_supply ∧
      w.holder_balances = vaultA.holder_balances :=
  ⟨by decide, by decide, by decide,
   (c7_distribute_yield_spec vaultA 3100 30 (by decide) (by decide)).2 (by decide)⟩

/-- C8: under the transactional runner any failing operation leaves the
vault, hence total_assets_held, claim_supply, holder_balances and the
idle/liquidity split, exactly as before the call; in particular a
rebalance whose venue reply reports price_impact_bps above
max_slippage_bps fails with SlippageExceeded (property P8). -/
theorem c8_atomic_rollback (v : Vault) (op : Op) (e : VaultError)
    (thr actual impact : Nat) :
    ((run v op).2 = some e → (run v op).1 = v) ∧
    (needs_rebalance v thr = true → v.max_slippage_bps < impact →
      rebalance v thr actual impact = .error .SlippageExceeded ∧
      run v (Op.rebalance thr actual impact) = (v, some .SlippageExceeded)) := by
  constructor
  · intro he
    cases hs : step v op with
    | ok p =>
      simp [run, hs] at he
    | error e2 =>
      simp [run, hs]
  · intro hnr hsl
    have h1 : rebalance v thr actual impact = .error .SlippageExceeded := by
      unfold rebalance
      rw [hnr]
      simp [hsl]
    exact ⟨h1, by simp [run, step, h1]⟩

/-- C8 witness: a deposit failing on the expired vaultA rolls back, and a
rebalance with price impact 200 over the 100 bps bound fails with
SlippageExceeded and rolls back. -/
theorem c8_atomic_rollback_witness :
    (run vaultA (Op.deposit 2 100 9999999)).2 = some VaultError.VaultExpired ∧
    (run vaultA (Op.deposit 2 100 9999999)).1 = vaultA ∧
    needs_rebalance vaultA 500 = true ∧
    vaultA.max_slippage_bps < 200 ∧
    rebalance vaultA 500 800 200 = .error .SlippageExceeded ∧
    run vaultA (Op.rebalance 500 800 200) = (vaultA, some .SlippageExceeded) :=
  ⟨by decide,
   (c8_atomic_rollback vaultA (Op.deposit 2 100 9999999) VaultError.VaultExpired
     500 800 200).1 (by decide),
   by decide, by decide,
   ((c8_atomic_rollback vaultA (Op.deposit 2 100 9999999) VaultError.VaultExpired
     500 800 200).2 (by decide) (by decide)).1,
   ((c8_atomic_rollback vaultA (Op.deposit 2 100 9999999) VaultError.VaultExpired
     500 800 200).2 (by decide) (by decide)).2⟩

/-- C9: needs_rebalance() is false whenever total_assets_held is zero,
so the ratio division is reached only with a positive divisor, and for
positive assets it is true exactly when the absolute deviation of
liquidity_amount * 10000 / total_assets_held from the target reaches the
threshold. -/
theorem c9_needs_rebalance_spec (v : Vault) (thr : Nat) :
    (v.total_assets_held = 0 → needs_rebalance v thr = false) ∧
    (0 < v.total_assets_held →
      (needs_rebalance v thr = true ↔
        thr ≤ (((v.liquidity_amount * 10000 / v.total_assets_held : Nat) : Int) -
          (v.target_liquidity_percent : Int)).natAbs)) := by
  constructor
  · intro h
    simp [needs_rebalance, h]
  · intro h
    have h0 : ¬ v.total_assets_held = 0 := by omega
    simp [needs_rebalance, h0]

/-- C9 witness: vaultA is at 3333 bps against a target of 8000. -/
theorem c9_needs_rebalance_spec_witness :
    0 < vaultA.total_assets_held ∧
    (needs_rebalance vaultA 500 = true ↔
      500 ≤ (((vaultA.liquidity_amount * 10000 / vaultA.total_assets_held : Nat) : Int) -
        (vaultA.target_liquidity_percent : Int)).natAbs) :=
  ⟨by decide, (c9_needs_rebalance_spec vaultA 500).2 (by decide)⟩

/-- C10: every iteration of the start_monitoring loop ends in
_cleanup_old_data, which unconditionally resets transaction_count to the
empty mapping; consequently _identify_trending_contracts only ever
compares trend_threshold against counts accumulated within a single
polling iteration, never across iterations: the trending contracts left
by an iteration are a function of that iteration's blocks alone. -/
theorem c10_monitor_counts_reset (m : MonitorState)
    (blocks blocks2 : List (List Transaction)) (now now2 : Nat) :
    (monitor_iteration m blocks now).transaction_count = [] ∧
    (m.transaction_count = [] →
      (monitor_iteration m blocks now).trending_contracts =
        trending_from_blocks m.trend_threshold blocks now) ∧
    (monitor_iteration (monitor_iteration m blocks now) blocks2 now2).trending_contracts =
      trending_from_blocks m.trend_threshold blocks2 now2 := by
  refine ⟨monitor_iteration_count m blocks now,
    monitor_iteration_trending m blocks now, ?_⟩
  rw [monitor_iteration_trending _ blocks2 now2 (monitor_iteration_count m blocks now),
    monitor_iteration_threshold]

/-- C10 witness on two concrete iterations. -/
theorem c10_monitor_counts_reset_witness :
    monitor0.transaction_count = [] ∧
    (monitor_iteration monitor0 blocksW 1000).transaction_count = [] ∧
    (monitor_iteration monitor0 blocksW 1000).trending_contracts =
      trending_from_blocks monitor0.trend_threshold blocksW 1000 ∧
    (monitor_iteration (monitor_iteration monitor0 blocksW 1000) blocksW2 2000).trending_contracts =
      trending_from_blocks monitor0.trend_threshold blocksW2 2000 :=
  ⟨by decide,
   (c10_monitor_counts_reset monitor0 blocksW blocksW2 1000 2000).1,
   (c10_monitor_counts_reset monitor0 blocksW blocksW2 1000 2000).2.1 (by decide),
   (c10_monitor_counts_reset monitor0 blocksW blocksW2 1000 2000).2.2⟩

end MarketPulse
